import Mathlib

/-!
Verification of the core message-bus of the transport-go repository against its
natural-language specification.  The Go source is shallowly embedded: pure
logic becomes Lean functions, the mutable structs that the Go closures capture
become explicit state records threaded through each function, callback
invocations are recorded in an output list instead of being executed, and the
Go `panic` arising from a failed type assertion or a nil-pointer dereference is
modelled by an `Option` result (`none` = the goroutine panics).
-/

namespace TransportGo

/-- UUIDs as used through the github.com/google/uuid package.  The source
compares uuids with `UUID.ID()`, which returns only the 32-bit value encoded in
the first four bytes of the uuid; we therefore model a uuid as that 32-bit
`idPart` together with the remaining 96 bits (`rest`), so that the projection
performed by `ID()` is distinguishable from full equality. -/
structure UUID where
  idPart : Nat
  rest : Nat
deriving DecidableEq, Repr

/-- Embeds google/uuid `func (uuid UUID) ID() uint32`: the value of bytes 0-3. -/
def UUID.ID (u : UUID) : Nat := u.idPart

/-- Embeds the `Direction` of a message (model package constants
`Request`, `Response`, `Error`). -/
inductive Direction
  | Request
  | Response
  | Error
deriving DecidableEq, Repr

/-- Errors carried by messages; the Go `error` interface value, `Option.none`
standing for a nil error. -/
abbrev Err := String

/-- Dynamic Go values (`interface\x7b\x7d` payloads).  Only the payload shapes the
core actually sends are represented. -/
inductive Value
  | vnone
  | vstr (s : String)
  | vint (n : Int)
  | vgalactic (conn : Nat) (dest : String)
deriving DecidableEq, Repr

/-- Modelled from the spec: the `model.Message` struct (the model package is
not among the provided sources; fields and their use are fixed by §3 of the
spec and by every call site in the bus package). -/
structure Message where
  id : Option UUID := none
  channel : String := ""
  destinationId : Option UUID := none
  direction : Direction := .Response
  payload : Value := .vnone
  error : Option Err := none
deriving DecidableEq, Repr

/-- Modelled from the spec: `model.MessageConfig`, the option-bag passed to the
message generators. -/
structure MessageConfig where
  id : Option UUID := none
  channel : String := ""
  destination : Option UUID := none
  payload : Value := .vnone
  err : Option Err := none
deriving DecidableEq, Repr

/-- Modelled from the spec: `model.GenerateRequest` builds a Request-direction
message from a config. -/
def GenerateRequest (c : MessageConfig) : Message :=
  { id := c.id, channel := c.channel, destinationId := c.destination,
    direction := .Request, payload := c.payload, error := c.err }

/-- Modelled from the spec: `model.GenerateResponse` builds a Response-direction
message from a config. -/
def GenerateResponse (c : MessageConfig) : Message :=
  { id := c.id, channel := c.channel, destinationId := c.destination,
    direction := .Response, payload := c.payload, error := c.err }

/-- Modelled from the spec: `model.GenerateError` builds an Error-direction
message from a config. -/
def GenerateError (c : MessageConfig) : Message :=
  { id := c.id, channel := c.channel, destinationId := c.destination,
    direction := .Error, payload := c.payload, error := c.err }

/-- Embeds `buildConfig` (eventbus source): the freshly drawn `uuid.New()`
value is passed in explicitly as `fresh`. -/
def buildConfig (channelName : String) (payload : Value) (destinationId : Option UUID)
    (fresh : UUID) : MessageConfig :=
  { id := some fresh, destination := destinationId, channel := channelName, payload := payload }

/-- Embeds `buildError` (eventbus source). -/
def buildError (channelName : String) (err : Option Err) (destinationId : Option UUID)
    (fresh : UUID) : MessageConfig :=
  { id := some fresh, destination := destinationId, channel := channelName, err := err }

/-- Embeds `checkForSuppliedId` (eventbus source): a nil id is replaced by a
freshly generated uuid, passed in explicitly as `fresh`. -/
def checkForSuppliedId (id : Option UUID) (fresh : UUID) : UUID :=
  match id with
  | none => fresh
  | some i => i

/-- The mutable `messageHandler` struct captured by the closures built in
`wrapMessageHandler`.  The user callbacks themselves are replaced by the flags
`hasSuccessCallback` and `hasErrorCallback` (nil-ness of the stored function is
all the source inspects); invocations are recorded in an output list. -/
structure MessageHandlerState where
  destination : Option UUID := none
  direction : Direction := .Response
  ignoreId : Bool := false
  allTraffic : Bool := false
  runOnce : Bool := false
  hasRun : Bool := false
  runCount : Nat := 0
  hasSuccessCallback : Bool := false
  hasErrorCallback : Bool := false
deriving DecidableEq, Repr

/-- One recorded callback invocation: either the success callback got a
message, or the error callback got an error value. -/
inductive CallbackCall
  | success (msg : Message)
  | failure (e : Option Err)
deriving DecidableEq, Repr

/-- Embeds `checkHandlerHasRun`. -/
def checkHandlerHasRun (h : MessageHandlerState) : Bool := h.hasRun

/-- Embeds `checkHandlerSingleRun`. -/
def checkHandlerSingleRun (h : MessageHandlerState) : Bool := h.runOnce

/-- Embeds the `successHandler` closure of `wrapMessageHandler`: guards on the
callback being registered and on the run-once gate, mutates `hasRun` and
`runCount`, and invokes the success callback. -/
def successHandlerRun (h : MessageHandlerState) (msg : Message) :
    MessageHandlerState × List CallbackCall :=
  if h.hasSuccessCallback then
    if checkHandlerSingleRun h then
      if ¬ checkHandlerHasRun h then
        ({ h with hasRun := true, runCount := h.runCount + 1 }, [.success msg])
      else (h, [])
    else
      ({ h with hasRun := true, runCount := h.runCount + 1 }, [.success msg])
  else (h, [])

/-- Embeds the `errorHandler` closure of `wrapMessageHandler`.  Note that the
non-single-run branch of the source sets `hasRun` but does not increment
`runCount`; this asymmetry with `successHandler` is preserved. -/
def errorHandlerRun (h : MessageHandlerState) (e : Option Err) :
    MessageHandlerState × List CallbackCall :=
  if h.hasErrorCallback then
    if checkHandlerSingleRun h then
      if ¬ checkHandlerHasRun h then
        ({ h with hasRun := true, runCount := h.runCount + 1 }, [.failure e])
      else (h, [])
    else
      ({ h with hasRun := true }, [.failure e])
  else (h, [])

/-- Embeds the direction-matching block of the `handlerWrapper` closure of
`wrapMessageHandler` (the statements guarded by `msg.Direction == dir` in the
non-firehose path).  The source tests `!ignoreId && ...` and then, separately,
`ignoreId`; the two guards are mutually exclusive so they are written as an
if/else-if chain here.  The destination comparison of the source is
`id.ID() == msg.DestinationId.ID()` after both nil-checks, i.e. a comparison
of the 32-bit `ID()` projections; it is rendered below as equality of the
`Option.map UUID.ID` images under the guard that both options are `some`. -/
def handlerWrapperCore (h : MessageHandlerState) (msg : Message) :
    MessageHandlerState × List CallbackCall :=
  if msg.direction = h.direction then
    if (¬ h.ignoreId) ∧ (msg.destinationId.isSome ∧ h.destination.isSome) ∧
        h.destination.map UUID.ID = msg.destinationId.map UUID.ID then
      successHandlerRun h msg
    else if h.ignoreId then successHandlerRun h msg
    else (h, [])
  else (h, [])

/-- Continuation of the embedding of `handlerWrapper`: the firehose branch,
and after the direction-matching block the unconditional check routing
Error-direction messages to the error closure (which observes the state the
success closure may just have written). -/
def handlerWrapper (h : MessageHandlerState) (msg : Message) :
    MessageHandlerState × List CallbackCall :=
  if h.allTraffic then
    if msg.direction = .Error then errorHandlerRun h msg.error
    else successHandlerRun h msg
  else
    if msg.direction = .Error then
      ((errorHandlerRun (handlerWrapperCore h msg).1 msg.error).1,
       (handlerWrapperCore h msg).2
         ++ (errorHandlerRun (handlerWrapperCore h msg).1 msg.error).2)
    else handlerWrapperCore h msg

/-- Delivers a list of messages to a handler in order, accumulating the
recorded callback invocations. -/
def deliverAll (h : MessageHandlerState) : List Message → MessageHandlerState × List CallbackCall
  | [] => (h, [])
  | m :: ms =>
    let s := handlerWrapper h m
    let rest := deliverAll s.1 ms
    (rest.1, s.2 ++ rest.2)

/-- Predicate selecting success invocations. -/
def isSuccessCall : CallbackCall → Bool
  | .success _ => true
  | .failure _ => false

/-- Success invocations among a list of recorded calls. -/
def successCalls (calls : List CallbackCall) : List CallbackCall :=
  calls.filter isSuccessCall

/-- Error invocations among a list of recorded calls. -/
def errorCalls (calls : List CallbackCall) : List CallbackCall :=
  calls.filter (fun c => ¬ isSuccessCall c)

/-- Embeds `createMessageHandler` (the handler's own fresh uuid is irrelevant
to every claim and omitted). -/
def createMessageHandler (destinationId : Option UUID) : MessageHandlerState :=
  { destination := destinationId }

/-- Embeds `wrapMessageHandler` up to the point where the closures are
installed: records direction, the ignore-destination flag, the firehose flag
and the destination id. -/
def wrapMessageHandler (direction : Direction) (ignoreId allTraffic : Bool)
    (destId : Option UUID) : MessageHandlerState :=
  { createMessageHandler destId with
      direction := direction, ignoreId := ignoreId, allTraffic := allTraffic }

/-- Modelled from the spec: `MessageHandler.Handle(onSuccess, onError)` of the
missing handler file registers the two callbacks. -/
def MessageHandlerState.Handle (h : MessageHandlerState) : MessageHandlerState :=
  { h with hasSuccessCallback := true, hasErrorCallback := true }

/-- Modelled from the spec: `MessageHandler.GetDestinationId` of the missing
handler file returns the stored destination id. -/
def MessageHandlerState.GetDestinationId (h : MessageHandlerState) : Option UUID :=
  h.destination

/-- Embeds the handler constructed by `ListenStreamForDestination`:
Response direction, destination filtering, streaming. -/
def ListenStreamForDestinationHandler (destId : UUID) : MessageHandlerState :=
  wrapMessageHandler .Response false false (some destId)

/-- Embeds the handler constructed by `ListenRequestStreamForDestination`. -/
def ListenRequestStreamForDestinationHandler (destId : UUID) : MessageHandlerState :=
  wrapMessageHandler .Request false false (some destId)

/-- Embeds the handler constructed by `ListenOnceForDestination`. -/
def ListenOnceForDestinationHandler (destId : UUID) : MessageHandlerState :=
  { wrapMessageHandler .Response false false (some destId) with runOnce := true }

/-- Embeds the handler constructed by `ListenRequestOnceForDestination`. -/
def ListenRequestOnceForDestinationHandler (destId : UUID) : MessageHandlerState :=
  { wrapMessageHandler .Request false false (some destId) with runOnce := true }

/-- Embeds the handler constructed by `ListenFirehose`: all traffic, no
destination filtering, streaming. -/
def ListenFirehoseHandler : MessageHandlerState :=
  wrapMessageHandler .Request true true none

/-- Embeds the handler constructed by `ListenOnce`: the fresh uuid produced by
`checkForSuppliedId(nil)` is passed in explicitly. -/
def ListenOnceHandler (fresh : UUID) : MessageHandlerState :=
  { wrapMessageHandler .Response true false (some (checkForSuppliedId none fresh)) with
      runOnce := true }

/-- Embeds the handler constructed by `ListenRequestOnce`. -/
def ListenRequestOnceHandler (fresh : UUID) : MessageHandlerState :=
  { wrapMessageHandler .Request true false (some (checkForSuppliedId none fresh)) with
      runOnce := true }

/-- Embeds the handler constructed by `RequestOnce` (the prepared request
message is irrelevant to the delivery claims and omitted). -/
def RequestOnceHandler (fresh : UUID) : MessageHandlerState :=
  { wrapMessageHandler .Response true false (some (checkForSuppliedId none fresh)) with
      runOnce := true }

/-- Embeds the handler constructed by `RequestStream`: like `RequestOnce` but
explicitly streaming (`runOnce = false`). -/
def RequestStreamHandler (fresh : UUID) : MessageHandlerState :=
  wrapMessageHandler .Response true false (some (checkForSuppliedId none fresh))

/-- Embeds the monitor event record of the util package. -/
structure MonitorEvent where
  eventType : Nat
  message : Option Message := none
  channel : String
deriving DecidableEq, Repr

/-- Embeds `util.NewMonitorEvent`. -/
def NewMonitorEvent (evtType : Nat) (channel : String) (message : Option Message) :
    MonitorEvent :=
  { eventType := evtType, message := message, channel := channel }

/-- The monitor stream: in the source, a buffered Go channel created by
`GetMonitor` with `make(chan *MonitorEvent, 5)`.  With no concurrent receiver
this is a FIFO buffer of capacity five, modelled as a list. -/
structure MonitorStream where
  buffer : List MonitorEvent := []
deriving DecidableEq, Repr

/-- The buffer capacity chosen in `GetMonitor`. -/
def monitorCapacity : Nat := 5

/-- Embeds `MonitorStream.SendMonitorEventData`: a non-blocking select that
enqueues the event when the buffer has space and silently drops it otherwise. -/
def MonitorStream.SendMonitorEventData (m : MonitorStream) (evtType : Nat)
    (channel : String) (msg : Option Message) : MonitorStream :=
  if m.buffer.length < monitorCapacity then
    { buffer := m.buffer ++ [NewMonitorEvent evtType channel msg] }
  else m

/-- Embeds `MonitorStream.SendMonitorEvent`: same as `SendMonitorEventData`
with a nil message. -/
def MonitorStream.SendMonitorEvent (m : MonitorStream) (evtType : Nat)
    (channel : String) : MonitorStream :=
  m.SendMonitorEventData evtType channel none

/-- Embeds the util package monitor event code constants. -/
def ChannelCreatedEvt : Nat := 0

/-- Monitor event code 1. -/
def ChannelDestroyedEvt : Nat := 1

/-- Monitor event code 2. -/
def ChannelSubscriberJoinedEvt : Nat := 2

/-- Monitor event code 3. -/
def ChannelSubscriberLeftEvt : Nat := 3

/-- Monitor event code 6. -/
def ChannelIsGalacticEvt : Nat := 6

/-- Monitor event code 7. -/
def ChannelIsLocalEvt : Nat := 7

/-- Modelled from the spec: the constant `util.BrokerSubscribedEvt` used by the
channel manager is absent both from the provided util constants and from the
spec's code table; only its distinctness matters here. -/
def BrokerSubscribedEvt : Nat := 12

/-- Modelled from the spec: the constant `util.BrokerUnsubscribedEvt`, likewise
absent from the provided sources. -/
def BrokerUnsubscribedEvt : Nat := 13

/-- Embeds `channelEventHandler`: a channel-level subscriber record. -/
structure ChannelEventHandler where
  uuid : UUID
  runOnce : Bool := false
  hasRun : Bool := false
deriving DecidableEq, Repr

/-- A broker subscription record held on a channel: the bridge connection it
was made on (connections modelled by numeric identity, standing for the Go
pointer) and the broker destination string. -/
structure BrokerSub where
  conn : Nat
  dest : String
deriving DecidableEq, Repr

/-- The `Channel` struct.  The channel implementation file is not among the
provided sources (only its callers are); the fields are those the callers
touch, and the operations below marked `Modelled from the spec` follow §4.1. -/
structure ChannelObj where
  allocId : Nat
  name : String
  eventHandlers : List ChannelEventHandler := []
  galactic : Bool := false
  galacticMappedDest : Option String := none
  brokerConns : List Nat := []
  brokerSubs : List BrokerSub := []
deriving DecidableEq, Repr

/-- Modelled from the spec: `NewChannel` allocates a fresh channel object; the
allocation counter `allocId` stands for the Go pointer identity. -/
def NewChannel (allocId : Nat) (name : String) : ChannelObj :=
  { allocId := allocId, name := name }

/-- Modelled from the spec: `Channel.subscribeHandler` appends a subscriber. -/
def ChannelObj.subscribeHandler (c : ChannelObj) (h : ChannelEventHandler) : ChannelObj :=
  { c with eventHandlers := c.eventHandlers ++ [h] }

/-- Modelled from the spec: the delivery algorithm of §4.1.  Every subscriber
that has not been consumed receives the message once, in subscription order; a
`runOnce` subscriber is marked consumed.  Deliveries are recorded as pairs of
the subscriber uuid and the message. -/
def ChannelObj.Send (c : ChannelObj) (msg : Message) :
    ChannelObj × List (UUID × Message) :=
  let step := fun (acc : List ChannelEventHandler × List (UUID × Message))
      (h : ChannelEventHandler) =>
    if h.runOnce ∧ h.hasRun then (acc.1 ++ [h], acc.2)
    else (acc.1 ++ [if h.runOnce then { h with hasRun := true } else h],
          acc.2 ++ [(h.uuid, msg)])
  let r := c.eventHandlers.foldl step ([], [])
  ({ c with eventHandlers := r.1 }, r.2)

/-- Modelled from the spec: `Channel.SetGalactic` flags the channel galactic
and records the mapped destination. -/
def ChannelObj.SetGalactic (c : ChannelObj) (dest : String) : ChannelObj :=
  { c with galactic := true, galacticMappedDest := some dest }

/-- Modelled from the spec: `Channel.SetLocal` clears the galactic mapping. -/
def ChannelObj.SetLocal (c : ChannelObj) : ChannelObj :=
  { c with galactic := false, galacticMappedDest := none }

/-- Modelled from the spec: `Channel.addBrokerConnection` records a bridge
connection on the channel. -/
def ChannelObj.addBrokerConnection (c : ChannelObj) (conn : Nat) : ChannelObj :=
  { c with brokerConns := c.brokerConns ++ [conn] }

/-- Modelled from the spec: `Channel.removeBrokerConnections` forgets every
recorded bridge connection. -/
def ChannelObj.removeBrokerConnections (c : ChannelObj) : ChannelObj :=
  { c with brokerConns := [] }

/-- Modelled from the spec: `Channel.isBrokerSubscribedToDestination` checks
for a recorded subscription with the same connection and destination. -/
def ChannelObj.isBrokerSubscribedToDestination (c : ChannelObj) (conn : Nat)
    (dest : String) : Bool :=
  c.brokerSubs.any (fun s => s.conn = conn ∧ s.dest = dest)

/-- Modelled from the spec: `Channel.addBrokerSubscription` records a broker
subscription. -/
def ChannelObj.addBrokerSubscription (c : ChannelObj) (s : BrokerSub) : ChannelObj :=
  { c with brokerSubs := c.brokerSubs ++ [s] }

/-- Modelled from the spec: `Channel.removeBrokerSubscription` removes a
recorded broker subscription. -/
def ChannelObj.removeBrokerSubscription (c : ChannelObj) (s : BrokerSub) : ChannelObj :=
  { c with brokerSubs := c.brokerSubs.filter (fun x => ¬ x = s) }

/-- Replaces any binding of `name` in an association list by `(name, v)`;
embeds assignment into the Go map `manager.Channels`. -/
def assocSet (l : List (String × ChannelObj)) (name : String) (v : ChannelObj) :
    List (String × ChannelObj) :=
  l.filter (fun p => ¬ p.1 = name) ++ [(name, v)]

/-- The state of `busChannelManager`: the name-to-channel registry, the
allocation counter supplying channel object identities, and the process
monitor stream the manager writes to. -/
structure ManagerState where
  channels : List (String × ChannelObj) := []
  nextAlloc : Nat := 0
  monitor : MonitorStream := {}
deriving DecidableEq, Repr

/-- Looks a channel object up by name in the registry. -/
def lookupChannel (st : ManagerState) (name : String) : Option ChannelObj :=
  (st.channels.find? (fun p => p.1 = name)).map (fun p => p.2)

/-- Embeds `busChannelManager.GetChannel`: the registered channel, or an error
naming the missing channel. -/
def GetChannel (st : ManagerState) (name : String) : Except String ChannelObj :=
  match lookupChannel st name with
  | some c => .ok c
  | none => .error ("Channel does not exist: " ++ name)

/-- Writes a channel object back into the registry under its name; embeds a Go
mutation through the shared channel pointer. -/
def updateChannel (st : ManagerState) (name : String) (c : ChannelObj) : ManagerState :=
  { st with channels := assocSet st.channels name c }

/-- Embeds `busChannelManager.CreateChannel`: first the `ChannelCreated`
monitor event is sent, then a brand-new channel object is allocated and stored
under the name, unconditionally replacing any existing binding, and the new
object is returned. -/
def CreateChannel (st : ManagerState) (name : String) : ManagerState × ChannelObj :=
  let monitor := st.monitor.SendMonitorEvent ChannelCreatedEvt name
  let c := NewChannel st.nextAlloc name
  ({ channels := assocSet st.channels name c, nextAlloc := st.nextAlloc + 1,
     monitor := monitor }, c)

/-- Embeds `busChannelManager.DestroyChannel`: first the `ChannelDestroyed`
monitor event is sent, then the binding is deleted (a no-op when absent). -/
def DestroyChannel (st : ManagerState) (name : String) : ManagerState :=
  { st with monitor := st.monitor.SendMonitorEvent ChannelDestroyedEvt name,
            channels := st.channels.filter (fun p => ¬ p.1 = name) }

/-- Embeds `busChannelManager.SubscribeChannelHandler` (the fresh `uuid.New()`
is passed in as `u`): fails on a missing channel, otherwise registers the
subscriber and sends the `SubscriberJoined` monitor event. -/
def SubscribeChannelHandler (st : ManagerState) (name : String) (u : UUID)
    (runOnce : Bool) : Except String (ManagerState × UUID) :=
  match GetChannel st name with
  | .error e => .error e
  | .ok ch =>
    let ch := ch.subscribeHandler { uuid := u, runOnce := runOnce }
    let st := updateChannel st name ch
    .ok ({ st with monitor := st.monitor.SendMonitorEvent ChannelSubscriberJoinedEvt name }, u)

/-- Embeds `bifrostEventBus.SendResponseMessage`: fails on a missing channel,
otherwise builds a Response message and hands it to the channel; the channel's
delivery records are returned alongside the new state. -/
def SendResponseMessage (st : ManagerState) (name : String) (payload : Value)
    (destId : Option UUID) (fresh : UUID) :
    Except String (ManagerState × List (UUID × Message)) :=
  match GetChannel st name with
  | .error e => .error e
  | .ok ch =>
    let config := buildConfig name payload destId fresh
    let message := GenerateResponse config
    let r := ch.Send message
    .ok (updateChannel st name r.1, r.2)

/-- Embeds `bifrostEventBus.SendRequestMessage`. -/
def SendRequestMessage (st : ManagerState) (name : String) (payload : Value)
    (destId : Option UUID) (fresh : UUID) :
    Except String (ManagerState × List (UUID × Message)) :=
  match GetChannel st name with
  | .error e => .error e
  | .ok ch =>
    let config := buildConfig name payload destId fresh
    let message := GenerateRequest config
    let r := ch.Send message
    .ok (updateChannel st name r.1, r.2)

/-- Embeds `bifrostEventBus.SendErrorMessage`.  Faithful to the source slip:
on a missing channel the function returns the CALLER-supplied error value
`err` (the statement `return err` where the channel lookup error is named
`chanErr`), so a nil `err` yields a nil result.  The first component is the
returned Go error, the rest is the state and the delivery records. -/
def SendErrorMessage (st : ManagerState) (name : String) (err : Option Err)
    (destId : Option UUID) (fresh : UUID) :
    Option Err × ManagerState × List (UUID × Message) :=
  match GetChannel st name with
  | .error _ => (err, st, [])
  | .ok ch =>
    let config := buildError name err destId fresh
    let message := GenerateError config
    let r := ch.Send message
    (none, updateChannel st name r.1, r.2)

/-- Embeds `busChannelManager.MarkChannelAsGalactic`: records the connection,
flags the channel galactic, and sends (asynchronously in the source, performed
inline here) the `ChannelIsGalactic` monitor event carrying a Request message
whose payload is the galactic event pair. -/
def MarkChannelAsGalactic (st : ManagerState) (name : String) (dest : String)
    (conn : Nat) : Except String ManagerState :=
  match GetChannel st name with
  | .error e => .error e
  | .ok ch =>
    let ch := ch.addBrokerConnection conn
    let ch := ch.SetGalactic dest
    let st := updateChannel st name ch
    let m := GenerateRequest { payload := .vgalactic conn dest }
    .ok { st with monitor := st.monitor.SendMonitorEventData ChannelIsGalacticEvt name (some m) }

/-- Embeds `busChannelManager.MarkChannelAsLocal`: clears the galactic mapping
and the recorded connections, then sends the `ChannelIsLocal` monitor event —
via `SendMonitorEvent`, i.e. WITH A NIL MESSAGE. -/
def MarkChannelAsLocal (st : ManagerState) (name : String) : Except String ManagerState :=
  match GetChannel st name with
  | .error e => .error e
  | .ok ch =>
    let ch := ch.SetLocal
    let ch := ch.removeBrokerConnections
    let st := updateChannel st name ch
    .ok { st with monitor := st.monitor.SendMonitorEvent ChannelIsLocalEvt name }

/-- Embeds `busChannelManager.handleGalacticChannelEvent`.  A missing channel
returns quietly; the type assertion `msg.Payload.(*galacticEvent)` on a nil
message or a payload of another shape is a Go runtime panic, modelled by
`none`.  The bridge subscribe call, absent from the provided sources, is
modelled from the spec as always succeeding with a subscription record for the
connection/destination pair. -/
def handleGalacticChannelEvent (st : ManagerState) (channelName : String)
    (msg : Option Message) : Option ManagerState :=
  match GetChannel st channelName with
  | .error _ => some st
  | .ok ch =>
    match msg with
    | none => none
    | some m =>
      match m.payload with
      | .vgalactic conn dest =>
        if ¬ ch.isBrokerSubscribedToDestination conn dest then
          let sub : BrokerSub := { conn := conn, dest := dest }
          let m2 := GenerateResponse { payload := .vstr dest }
          let ch := ch.addBrokerSubscription sub
          let st := updateChannel st channelName ch
          some { st with
                   monitor := st.monitor.SendMonitorEventData BrokerSubscribedEvt
                     channelName (some m2) }
        else some st
      | _ => none

/-- Unsubscribes every broker subscription recorded on a channel, emitting a
`BrokerUnsubscribed` monitor event per record; embeds the loop body of
`handleLocalChannelEvent` (the bridge `Unsubscribe`, absent from the provided
sources, is modelled from the spec as always succeeding). -/
def handleLocalUnsubAll (ch : ChannelObj) (mon : MonitorStream)
    (channelName destination : String) : ChannelObj × MonitorStream :=
  ch.brokerSubs.foldl
    (fun acc s =>
      (acc.1.removeBrokerSubscription s,
       acc.2.SendMonitorEventData BrokerUnsubscribedEvt channelName
         (some (GenerateResponse { payload := Value.vstr destination }))))
    (ch, mon)

/-- Embeds `busChannelManager.handleLocalChannelEvent`.  A missing channel
returns quietly; the extraction `destination := msg.Payload.(string)` on a nil
message (which is what `MarkChannelAsLocal` always produces) or a non-string
payload is a Go runtime panic, modelled by `none`. -/
def handleLocalChannelEvent (st : ManagerState) (channelName : String)
    (msg : Option Message) : Option ManagerState :=
  match GetChannel st channelName with
  | .error _ => some st
  | .ok ch =>
    match msg with
    | none => none
    | some m =>
      match m.payload with
      | .vstr destination =>
        let r := handleLocalUnsubAll ch st.monitor channelName destination
        some { updateChannel st channelName r.1 with monitor := r.2 }
      | _ => none

/-- Embeds one iteration of the `ListenToMonitor` loop: take the next event
off the stream and dispatch galactic/local transitions; every other event type
is ignored.  A panic in a handler is propagated as `none`. -/
def ListenToMonitorStep (st : ManagerState) : Option ManagerState :=
  match st.monitor.buffer with
  | [] => some st
  | e :: rest =>
    let st := { st with monitor := { buffer := rest } }
    if e.eventType = ChannelIsGalacticEvt then
      handleGalacticChannelEvent st e.channel e.message
    else if e.eventType = ChannelIsLocalEvt then
      handleLocalChannelEvent st e.channel e.message
    else some st

/-- Runs the monitor loop for a bounded number of iterations. -/
def runMonitor : Nat → ManagerState → Option ManagerState
  | 0, st => some st
  | n + 1, st =>
    match ListenToMonitorStep st with
    | none => none
    | some st => runMonitor n st

/-- A primitive step of a manager operation, at the granularity of the Go
statements of `CreateChannel` and `DestroyChannel`; used to expose the order
in which the monitor event and the registry mutation happen. -/
inductive ManagerAction
  | emitEvent (evtType : Nat) (channel : String)
  | registerChannel (name : String)
  | unregisterChannel (name : String)
deriving DecidableEq, Repr

/-- Applies one primitive manager step to the state. -/
def applyAction (st : ManagerState) : ManagerAction → ManagerState
  | .emitEvent t c => { st with monitor := st.monitor.SendMonitorEvent t c }
  | .registerChannel name =>
    { st with channels := assocSet st.channels name (NewChannel st.nextAlloc name),
              nextAlloc := st.nextAlloc + 1 }
  | .unregisterChannel name =>
    { st with channels := st.channels.filter (fun p => ¬ p.1 = name) }

/-- The statement order of `CreateChannel` in the source: the monitor event is
sent first, the registry is written second. -/
def createChannelSteps (name : String) : List ManagerAction :=
  [.emitEvent ChannelCreatedEvt name, .registerChannel name]

/-- The statement order of `DestroyChannel` in the source: the monitor event
is sent first, the binding is deleted second. -/
def destroyChannelSteps (name : String) : List ManagerAction :=
  [.emitEvent ChannelDestroyedEvt name, .unregisterChannel name]

/-- The concrete run used against claim C1: create a channel, register a
subscriber on it, create the same name again, then send a response message on
the name.  The result records the two channel objects returned by the two
creations and the deliveries of the final send. -/
def c1Pipeline : Option (ChannelObj × ChannelObj × List (UUID × Message)) :=
  let st0 : ManagerState := {}
  let p1 := CreateChannel st0 "test-channel"
  ((SubscribeChannelHandler p1.1 "test-channel" { idPart := 1, rest := 1 } false).toOption).bind
    fun s2 =>
      let p2 := CreateChannel s2.1 "test-channel"
      ((SendResponseMessage p2.1 "test-channel" (.vstr "hello melody") none
          { idPart := 2, rest := 2 }).toOption).map
        fun r => (p1.2, p2.2, r.2)

/-- The concrete run used against claim C6: create a channel, mark it
galactic, let the monitor loop process the pending events (which records the
broker subscription), then mark the channel local again. -/
def c6Scenario : Option ManagerState :=
  let st0 : ManagerState := {}
  let p := CreateChannel st0 "galactic-channel"
  (MarkChannelAsGalactic p.1 "galactic-channel" "/topic/foo" 0).toOption.bind fun st1 =>
    (runMonitor 2 st1).bind fun st2 =>
      (MarkChannelAsLocal st2 "galactic-channel").toOption

theorem find?_assocSet (l : List (String × ChannelObj)) (name : String) (v : ChannelObj) :
    (assocSet l name v).find? (fun p => p.1 = name) = some (name, v) := by
  unfold assocSet
  rw [List.find?_append]
  have h1 : (l.filter fun p => ¬ p.1 = name).find? (fun p => p.1 = name) = none := by
    rw [List.find?_eq_none]
    intro x hx
    have hmem := List.mem_filter.mp hx
    simpa using hmem.2
  rw [h1]
  simp [List.find?]

theorem lookupChannel_updateChannel (st : ManagerState) (name : String) (c : ChannelObj) :
    lookupChannel (updateChannel st name c) name = some c := by
  simp [lookupChannel, updateChannel, find?_assocSet]

theorem lookupChannel_createChannel (st : ManagerState) (name : String) :
    lookupChannel (CreateChannel st name).1 name = some (NewChannel st.nextAlloc name) := by
  simp [lookupChannel, CreateChannel, find?_assocSet]

/-- C8: SendMonitorEvent / SendMonitorEventData never block the caller: when
the bounded buffer (capacity five) is full the event is dropped silently with
the buffer unchanged, otherwise the event is appended; the data-free form is
the data form with a nil message. -/
theorem monitor_send_bounded_drop (m : MonitorStream) (evtType : Nat) (channel : String)
    (msg : Option Message) :
    (monitorCapacity ≤ m.buffer.length → m.SendMonitorEventData evtType channel msg = m) ∧
    (m.buffer.length < monitorCapacity →
      (m.SendMonitorEventData evtType channel msg).buffer
        = m.buffer ++ [NewMonitorEvent evtType channel msg]) ∧
    m.SendMonitorEvent evtType channel = m.SendMonitorEventData evtType channel none := by
  refine ⟨fun hfull => ?_, fun hspace => ?_, rfl⟩
  · simp only [MonitorStream.SendMonitorEventData, if_neg (Nat.not_lt.mpr hfull)]
  · simp only [MonitorStream.SendMonitorEventData, if_pos hspace]

theorem monitor_send_bounded_drop_witness :
    (monitorCapacity ≤ (List.replicate 5 (NewMonitorEvent 0 "a" none)).length ∧
      MonitorStream.SendMonitorEventData { buffer := List.replicate 5 (NewMonitorEvent 0 "a" none) }
        1 "b" none = { buffer := List.replicate 5 (NewMonitorEvent 0 "a" none) }) ∧
    (([] : List MonitorEvent).length < monitorCapacity ∧
      (MonitorStream.SendMonitorEventData { buffer := [] } 1 "b" none).buffer
        = [] ++ [NewMonitorEvent 1 "b" none]) :=
  ⟨⟨by decide,
    (monitor_send_bounded_drop { buffer := List.replicate 5 (NewMonitorEvent 0 "a" none) }
      1 "b" none).1 (by decide)⟩,
   ⟨by decide,
    (monitor_send_bounded_drop { buffer := [] } 1 "b" none).2.1 (by decide)⟩⟩

/-- C10: DestroyChannel never fails; on a name that is not registered it
leaves the registry unchanged, yet it still sends a ChannelDestroyed monitor
event for that name (appended to the buffer whenever there is space). -/
theorem destroyChannel_absent_emits_event (st : ManagerState) (name : String)
    (habs : lookupChannel st name = none) :
    (DestroyChannel st name).channels = st.channels ∧
    (DestroyChannel st name).monitor = st.monitor.SendMonitorEvent ChannelDestroyedEvt name ∧
    (st.monitor.buffer.length < monitorCapacity →
      (DestroyChannel st name).monitor.buffer
        = st.monitor.buffer ++ [NewMonitorEvent ChannelDestroyedEvt name none]) := by
  have hfind : st.channels.find? (fun p => p.1 = name) = none := by
    by_contra hne
    rcases Option.ne_none_iff_exists'.mp hne with ⟨x, hx⟩
    simp [lookupChannel, hx] at habs
  have hall := List.find?_eq_none.mp hfind
  refine ⟨?_, rfl, fun hspace => ?_⟩
  · simp only [DestroyChannel]
    exact List.filter_eq_self.mpr fun a ha => by simpa using hall a ha
  · simp only [DestroyChannel, MonitorStream.SendMonitorEvent,
      MonitorStream.SendMonitorEventData, if_pos hspace]

theorem destroyChannel_absent_emits_event_witness :
    lookupChannel ({} : ManagerState) "never-created" = none ∧
    ((DestroyChannel ({} : ManagerState) "never-created").channels
        = ({} : ManagerState).channels ∧
      (DestroyChannel ({} : ManagerState) "never-created").monitor
        = ({} : ManagerState).monitor.SendMonitorEvent ChannelDestroyedEvt "never-created" ∧
      (({} : ManagerState).monitor.buffer.length < monitorCapacity →
        (DestroyChannel ({} : ManagerState) "never-created").monitor.buffer
          = ({} : ManagerState).monitor.buffer
              ++ [NewMonitorEvent ChannelDestroyedEvt "never-created" none])) :=
  ⟨by decide, destroyChannel_absent_emits_event ({} : ManagerState) "never-created" (by decide)⟩

/-- C5: on a bus with no channel of the given name, SendErrorMessage returns
the caller-supplied error value unchanged instead of an error reporting the
unknown channel; with a nil caller error it reports no error at all.  No
message is delivered either way.  GetChannel itself does produce the
channel-not-found error the claim expects. -/
theorem sendErrorMessage_unknown_channel_swallows :
    SendErrorMessage ({} : ManagerState) "missing-channel" none none { idPart := 9, rest := 9 }
      = (none, ({} : ManagerState), []) ∧
    SendErrorMessage ({} : ManagerState) "missing-channel" (some "whoops") none
        { idPart := 9, rest := 9 }
      = (some "whoops", ({} : ManagerState), []) ∧
    GetChannel ({} : ManagerState) "missing-channel"
      = Except.error ("Channel does not exist: " ++ "missing-channel") :=
  ⟨rfl, rfl, rfl⟩

/-- C7, as claims it: the monitor event is emitted only after the registry has
been updated.  This is false: at the intermediate state of CreateChannel the
ChannelCreated event is already in the monitor buffer while GetChannel still
fails for the name. -/
theorem channelCreated_before_registration_cex :
    (applyAction ({} : ManagerState)
        (.emitEvent ChannelCreatedEvt "test-channel")).monitor.buffer
      = [NewMonitorEvent ChannelCreatedEvt "test-channel" none] ∧
    GetChannel (applyAction ({} : ManagerState)
        (.emitEvent ChannelCreatedEvt "test-channel")) "test-channel"
      = Except.error ("Channel does not exist: " ++ "test-channel") ∧
    (CreateChannel ({} : ManagerState) "test-channel").1
      = applyAction (applyAction ({} : ManagerState)
          (.emitEvent ChannelCreatedEvt "test-channel"))
          (.registerChannel "test-channel") :=
  ⟨rfl, rfl, rfl⟩

/-- C7 amended: CreateChannel and DestroyChannel emit their monitor event
immediately BEFORE the registry update: each operation decomposes into the
event emission followed by the registry mutation, and at the intermediate
state the event is already buffered while the registry is unchanged. -/
theorem monitor_events_precede_registry_update (st : ManagerState) (name : String)
    (hspace : st.monitor.buffer.length < monitorCapacity) :
    ((applyAction st (.emitEvent ChannelCreatedEvt name)).monitor.buffer
        = st.monitor.buffer ++ [NewMonitorEvent ChannelCreatedEvt name none] ∧
      (applyAction st (.emitEvent ChannelCreatedEvt name)).channels = st.channels ∧
      (CreateChannel st name).1
        = applyAction (applyAction st (.emitEvent ChannelCreatedEvt name))
            (.registerChannel name)) ∧
    ((applyAction st (.emitEvent ChannelDestroyedEvt name)).monitor.buffer
        = st.monitor.buffer ++ [NewMonitorEvent ChannelDestroyedEvt name none] ∧
      (applyAction st (.emitEvent ChannelDestroyedEvt name)).channels = st.channels ∧
      DestroyChannel st name
        = applyAction (applyAction st (.emitEvent ChannelDestroyedEvt name))
            (.unregisterChannel name)) := by
  refine ⟨⟨?_, rfl, rfl⟩, ⟨?_, rfl, rfl⟩⟩ <;>
    simp only [applyAction, MonitorStream.SendMonitorEvent,
      MonitorStream.SendMonitorEventData, if_pos hspace]

theorem monitor_events_precede_registry_update_witness :
    ({} : ManagerState).monitor.buffer.length < monitorCapacity ∧
    (((applyAction ({} : ManagerState) (.emitEvent ChannelCreatedEvt "c")).monitor.buffer
        = ({} : ManagerState).monitor.buffer ++ [NewMonitorEvent ChannelCreatedEvt "c" none] ∧
      (applyAction ({} : ManagerState) (.emitEvent ChannelCreatedEvt "c")).channels
        = ({} : ManagerState).channels ∧
      (CreateChannel ({} : ManagerState) "c").1
        = applyAction (applyAction ({} : ManagerState) (.emitEvent ChannelCreatedEvt "c"))
            (.registerChannel "c")) ∧
    ((applyAction ({} : ManagerState) (.emitEvent ChannelDestroyedEvt "c")).monitor.buffer
        = ({} : ManagerState).monitor.buffer ++ [NewMonitorEvent ChannelDestroyedEvt "c" none] ∧
      (applyAction ({} : ManagerState) (.emitEvent ChannelDestroyedEvt "c")).channels
        = ({} : ManagerState).channels ∧
      DestroyChannel ({} : ManagerState) "c"
        = applyAction (applyAction ({} : ManagerState) (.emitEvent ChannelDestroyedEvt "c"))
            (.unregisterChannel "c"))) :=
  ⟨by decide, monitor_events_precede_registry_update ({} : ManagerState) "c" (by decide)⟩

/-- C1, as the claim states it: re-creating an existing channel name returns
the same channel object and earlier subscribers keep receiving.  This is
false: the two creations return distinct objects and a subscriber registered
between them receives nothing from a send after the second creation. -/
theorem createChannel_not_idempotent_cex :
    (c1Pipeline.map fun r => (r.1.allocId, r.2.1.allocId, r.2.2)) = some (0, 1, []) ∧
    (c1Pipeline.map fun r => decide (r.1 = r.2.1)) = some false :=
  ⟨rfl, rfl⟩

/-- C1 amended: CreateChannel always allocates and registers a brand-new
channel object, replacing any existing binding of the name; the object
returned by a repeated creation differs from the first, and a send performed
right after the second creation reaches no subscriber (in particular none of
those registered on the first object). -/
theorem createChannel_overwrites (st : ManagerState) (name : String) (payload : Value)
    (destId : Option UUID) (fresh : UUID) :
    (CreateChannel st name).2.allocId
      ≠ (CreateChannel (CreateChannel st name).1 name).2.allocId ∧
    ∃ st2, SendResponseMessage (CreateChannel st name).1 name payload destId fresh
        = Except.ok (st2, []) := by
  constructor
  · simp only [CreateChannel, NewChannel]
    omega
  · refine ⟨updateChannel (CreateChannel st name).1 name
      ((NewChannel st.nextAlloc name).Send
        (GenerateResponse (buildConfig name payload destId fresh))).1, ?_⟩
    simp [SendResponseMessage, GetChannel, lookupChannel_createChannel,
      ChannelObj.Send, NewChannel]

/-- C6: the galactic-to-local transition can never complete.  After marking a
channel galactic (with the broker subscription recorded by the monitor loop)
and then marking it local, the ChannelIsLocal monitor event carries a nil
message — but handleLocalChannelEvent extracts the destination with the type
assertion msg.Payload.(string), which on a nil message is a runtime panic
(modelled as none).  The broker subscription therefore remains recorded and
its unsubscribe is never called. -/
theorem markLocal_monitor_event_panics :
    (c6Scenario.map fun st => (lookupChannel st "galactic-channel").map ChannelObj.brokerSubs)
      = some (some [{ conn := 0, dest := "/topic/foo" }]) ∧
    (c6Scenario.map fun st => st.monitor.buffer.getLast?)
      = some (some (NewMonitorEvent ChannelIsLocalEvt "galactic-channel" none)) ∧
    c6Scenario.bind (runMonitor 2) = none :=
  ⟨rfl, rfl, rfl⟩

theorem successHandlerRun_spent (h : MessageHandlerState) (msg : Message)
    (hro : h.runOnce = true) (hhr : h.hasRun = true) :
    successHandlerRun h msg = (h, []) := by
  simp [successHandlerRun, checkHandlerSingleRun, checkHandlerHasRun, hro, hhr]

theorem errorHandlerRun_spent (h : MessageHandlerState) (e : Option Err)
    (hro : h.runOnce = true) (hhr : h.hasRun = true) :
    errorHandlerRun h e = (h, []) := by
  simp [errorHandlerRun, checkHandlerSingleRun, checkHandlerHasRun, hro, hhr]

theorem successHandlerRun_fresh (h : MessageHandlerState) (msg : Message)
    (hro : h.runOnce = true) (hhr : h.hasRun = false) :
    successHandlerRun h msg = (h, []) ∨
      successHandlerRun h msg
        = ({ h with hasRun := true, runCount := h.runCount + 1 }, [.success msg]) := by
  by_cases hcb : h.hasSuccessCallback
  · right
    simp [successHandlerRun, checkHandlerSingleRun, checkHandlerHasRun, hro, hhr, hcb]
  · left
    simp [successHandlerRun, hcb]

theorem errorHandlerRun_fresh (h : MessageHandlerState) (e : Option Err)
    (hro : h.runOnce = true) (hhr : h.hasRun = false) :
    errorHandlerRun h e = (h, []) ∨
      errorHandlerRun h e
        = ({ h with hasRun := true, runCount := h.runCount + 1 }, [.failure e]) := by
  by_cases hcb : h.hasErrorCallback
  · right
    simp [errorHandlerRun, checkHandlerSingleRun, checkHandlerHasRun, hro, hhr, hcb]
  · left
    simp [errorHandlerRun, hcb]

theorem successHandlerRun_fresh_cb (h : MessageHandlerState) (msg : Message)
    (hhr : h.hasRun = false) (hsc : h.hasSuccessCallback = true) :
    successHandlerRun h msg
      = ({ h with hasRun := true, runCount := h.runCount + 1 }, [.success msg]) := by
  by_cases hro : h.runOnce <;>
    simp [successHandlerRun, checkHandlerSingleRun, checkHandlerHasRun, hhr, hsc, hro]

theorem errorHandlerRun_fresh_cb_calls (h : MessageHandlerState) (e : Option Err)
    (hhr : h.hasRun = false) (hec : h.hasErrorCallback = true) :
    (errorHandlerRun h e).2 = [.failure e] := by
  by_cases hro : h.runOnce <;>
    simp [errorHandlerRun, checkHandlerSingleRun, checkHandlerHasRun, hhr, hec, hro]

theorem handlerWrapperCore_spent (h : MessageHandlerState) (msg : Message)
    (hro : h.runOnce = true) (hhr : h.hasRun = true) :
    handlerWrapperCore h msg = (h, []) := by
  simp only [handlerWrapperCore]
  split_ifs <;> simp [successHandlerRun_spent h msg hro hhr]

theorem handlerWrapper_runOnce_spent (h : MessageHandlerState) (msg : Message)
    (hro : h.runOnce = true) (hhr : h.hasRun = true) :
    handlerWrapper h msg = (h, []) := by
  simp only [handlerWrapper]
  split_ifs with h1 h2 h3
  · exact errorHandlerRun_spent h msg.error hro hhr
  · exact successHandlerRun_spent h msg hro hhr
  · rw [handlerWrapperCore_spent h msg hro hhr]
    simp [errorHandlerRun_spent h msg.error hro hhr]
  · exact handlerWrapperCore_spent h msg hro hhr

theorem handlerWrapperCore_fresh (h : MessageHandlerState) (msg : Message)
    (hro : h.runOnce = true) (hhr : h.hasRun = false) :
    handlerWrapperCore h msg = (h, []) ∨
      handlerWrapperCore h msg
        = ({ h with hasRun := true, runCount := h.runCount + 1 }, [.success msg]) := by
  simp only [handlerWrapperCore]
  split_ifs
  · exact successHandlerRun_fresh h msg hro hhr
  · exact successHandlerRun_fresh h msg hro hhr
  · exact Or.inl rfl
  · exact Or.inl rfl

theorem handlerWrapper_runOnce_fresh (h : MessageHandlerState) (msg : Message)
    (hro : h.runOnce = true) (hhr : h.hasRun = false) :
    handlerWrapper h msg = (h, []) ∨
      ∃ c, handlerWrapper h msg
        = ({ h with hasRun := true, runCount := h.runCount + 1 }, [c]) := by
  simp only [handlerWrapper]
  split_ifs with h1 h2 h3
  · rcases errorHandlerRun_fresh h msg.error hro hhr with he | he
    · exact Or.inl he
    · exact Or.inr ⟨_, he⟩
  · rcases successHandlerRun_fresh h msg hro hhr with hs | hs
    · exact Or.inl hs
    · exact Or.inr ⟨_, hs⟩
  · rcases handlerWrapperCore_fresh h msg hro hhr with hc | hc
    · rw [hc]
      rcases errorHandlerRun_fresh h msg.error hro hhr with he | he
      · left
        simp [he]
      · right
        exact ⟨.failure msg.error, by simp [he]⟩
    · rw [hc]
      have hsp : errorHandlerRun ({ h with hasRun := true, runCount := h.runCount + 1 })
          msg.error = ({ h with hasRun := true, runCount := h.runCount + 1 }, []) :=
        errorHandlerRun_spent _ msg.error (by simpa using hro) rfl
      right
      exact ⟨.success msg, by simp [hsp]⟩
  · rcases handlerWrapperCore_fresh h msg hro hhr with hc | hc
    · exact Or.inl hc
    · exact Or.inr ⟨_, hc⟩

theorem handlerWrapper_runOnce_step (h : MessageHandlerState) (msg : Message)
    (hro : h.runOnce = true) :
    (handlerWrapper h msg).1.runOnce = true ∧
    (handlerWrapper h msg).2.length
        + (if (handlerWrapper h msg).1.hasRun then 0 else 1)
      ≤ (if h.hasRun then 0 else 1) := by
  by_cases hhr : h.hasRun
  · rw [handlerWrapper_runOnce_spent h msg hro hhr]
    simp [hro, hhr]
  · rcases handlerWrapper_runOnce_fresh h msg hro (by simpa using hhr) with hw | ⟨c, hw⟩
    · rw [hw]
      simp [hro, hhr]
    · rw [hw]
      simp [hro, hhr]

/-- C3: a run-once handler invokes its success or error callback at most once
across any sequence of delivered messages; once it has run, every further
delivery is dropped with no invocation. -/
theorem runOnce_at_most_once (h : MessageHandlerState) (msgs : List Message)
    (hro : h.runOnce = true) :
    (deliverAll h msgs).2.length ≤ (if h.hasRun then 0 else 1) := by
  induction msgs generalizing h with
  | nil => simp [deliverAll]
  | cons m ms ih =>
    have hstep := handlerWrapper_runOnce_step h m hro
    have hrec := ih (handlerWrapper h m).1 hstep.1
    simp only [deliverAll, List.length_append]
    by_cases hb : h.hasRun <;> by_cases hb2 : (handlerWrapper h m).1.hasRun <;>
      simp_all

theorem runOnce_at_most_once_witness :
    ((ListenOnceHandler { idPart := 7, rest := 7 }).Handle).runOnce = true ∧
    (deliverAll ((ListenOnceHandler { idPart := 7, rest := 7 }).Handle)
        [{ direction := .Response, payload := .vstr "a" },
         { direction := .Response, payload := .vstr "b" },
         { direction := .Error, error := some "boom" }]).2.length
      ≤ (if ((ListenOnceHandler { idPart := 7, rest := 7 }).Handle).hasRun then 0 else 1) :=
  ⟨rfl, runOnce_at_most_once ((ListenOnceHandler { idPart := 7, rest := 7 }).Handle)
    [{ direction := .Response, payload := .vstr "a" },
     { direction := .Response, payload := .vstr "b" },
     { direction := .Error, error := some "boom" }] rfl⟩

theorem successHandlerRun_stream (h : MessageHandlerState) (msg : Message)
    (hro : h.runOnce = false) (hsc : h.hasSuccessCallback = true) :
    successHandlerRun h msg
      = ({ h with hasRun := true, runCount := h.runCount + 1 }, [.success msg]) := by
  simp [successHandlerRun, checkHandlerSingleRun, hro, hsc]

theorem errorHandlerRun_stream (h : MessageHandlerState) (e : Option Err)
    (hro : h.runOnce = false) (hec : h.hasErrorCallback = true) :
    errorHandlerRun h e = ({ h with hasRun := true }, [.failure e]) := by
  simp [errorHandlerRun, checkHandlerSingleRun, hro, hec]

theorem firehose_step (h : MessageHandlerState) (msg : Message)
    (hall : h.allTraffic = true) (hro : h.runOnce = false)
    (hsc : h.hasSuccessCallback = true) (hec : h.hasErrorCallback = true) :
    (handlerWrapper h msg).1.allTraffic = true ∧
    (handlerWrapper h msg).1.runOnce = false ∧
    (handlerWrapper h msg).1.hasSuccessCallback = true ∧
    (handlerWrapper h msg).1.hasErrorCallback = true ∧
    (handlerWrapper h msg).2
      = if msg.direction = .Error then [.failure msg.error] else [.success msg] := by
  by_cases hde : msg.direction = .Error <;>
    simp [handlerWrapper, hall, hde, errorHandlerRun_stream h msg.error hro hec,
      successHandlerRun_stream h msg hro hsc, hro, hsc, hec]

theorem firehose_deliver_counts (msgs : List Message) :
    ∀ h : MessageHandlerState, h.allTraffic = true → h.runOnce = false →
      h.hasSuccessCallback = true → h.hasErrorCallback = true →
      (successCalls (deliverAll h msgs).2).length
          = (msgs.filter fun m => ¬ m.direction = .Error).length ∧
      (errorCalls (deliverAll h msgs).2).length
          = (msgs.filter fun m => m.direction = .Error).length := by
  induction msgs with
  | nil =>
    intro h _ _ _ _
    simp [deliverAll, successCalls, errorCalls]
  | cons m ms ih =>
    intro h hall hro hsc hec
    obtain ⟨h1, h2, h3, h4, hcalls⟩ := firehose_step h m hall hro hsc hec
    obtain ⟨ihs, ihe⟩ := ih _ h1 h2 h3 h4
    by_cases hd : m.direction = .Error <;>
      simp [deliverAll, successCalls, errorCalls, hcalls, hd, List.filter_append,
        isSuccessCall, successCalls] at ihs ihe ⊢ <;>
      omega

/-- C4: a firehose handler receives every message on the channel with no
direction or destination filtering: across any sequence of messages the
success callback fires exactly once per non-Error message and the error
callback exactly once per Error message. -/
theorem firehose_partitions_all_traffic (msgs : List Message) :
    (successCalls (deliverAll (ListenFirehoseHandler.Handle) msgs).2).length
      = (msgs.filter fun m => ¬ m.direction = .Error).length ∧
    (errorCalls (deliverAll (ListenFirehoseHandler.Handle) msgs).2).length
      = (msgs.filter fun m => m.direction = .Error).length :=
  firehose_deliver_counts msgs (ListenFirehoseHandler.Handle) rfl rfl rfl rfl

/-- C2, as the claim states it: a ForDestination handler's success callback
fires only for messages whose destination id EQUALS the handler's.  This is
false: the source compares uuids through the 32-bit ID() projection, so a
message whose destination uuid differs from the handler's in the remaining
bits but agrees in the first four bytes is still delivered to the success
callback. -/
theorem forDestination_prefix_match_cex :
    successCalls (handlerWrapper
        ((ListenStreamForDestinationHandler { idPart := 5, rest := 0 }).Handle)
        { direction := .Response, destinationId := some { idPart := 5, rest := 1 },
          payload := .vstr "x" }).2
      = [.success { direction := .Response, destinationId := some { idPart := 5, rest := 1 },
                    payload := .vstr "x" }] ∧
    ¬ (some ({ idPart := 5, rest := 1 } : UUID) = some ({ idPart := 5, rest := 0 } : UUID)) := by
  exact ⟨rfl, by decide⟩

/-- C2 amended: for a freshly-registered ForDestination handler (direction
Request or Response, one-shot or streaming) with destination id D, the success
callback fires for a message m iff m has the handler's direction and a non-nil
destination id whose 32-bit ID() projection equals that of D (google/uuid
compares only the first four bytes); Error-direction messages go to the error
callback instead. -/
theorem forDestination_delivery_iff (dir : Direction) (D : UUID) (b : Bool) (msg : Message)
    (hdir : ¬ dir = Direction.Error) :
    (successCalls (handlerWrapper
        ({ wrapMessageHandler dir false false (some D) with runOnce := b }).Handle msg).2 ≠ []
      ↔ msg.direction = dir ∧ ∃ d, msg.destinationId = some d ∧ d.ID = D.ID) ∧
    (msg.direction = .Error →
      errorCalls (handlerWrapper
          ({ wrapMessageHandler dir false false (some D) with runOnce := b }).Handle msg).2
        = [.failure msg.error]) := by
  set h : MessageHandlerState :=
    ({ wrapMessageHandler dir false false (some D) with runOnce := b }).Handle with hh
  have hig : h.ignoreId = false := rfl
  have hdst0 : h.destination = some D := rfl
  have hdir0 : h.direction = dir := rfl
  have hat : h.allTraffic = false := rfl
  have hhr : h.hasRun = false := rfl
  have hsc : h.hasSuccessCallback = true := rfl
  have hec : h.hasErrorCallback = true := rfl
  have hcore : handlerWrapperCore h msg
      = if msg.direction = dir ∧ msg.destinationId.isSome ∧
            (some D).map UUID.ID = msg.destinationId.map UUID.ID then
          ({ h with hasRun := true, runCount := h.runCount + 1 }, [.success msg])
        else (h, []) := by
    by_cases h1 : msg.direction = dir
    · by_cases h2 : msg.destinationId.isSome ∧
          (some D).map UUID.ID = msg.destinationId.map UUID.ID
      · rw [if_pos ⟨h1, h2⟩]
        simp only [handlerWrapperCore, hdir0, if_pos h1]
        rw [if_pos ⟨by simp [hig], by simp [hdst0, h2.1], by rw [hdst0]; exact h2.2⟩]
        exact successHandlerRun_fresh_cb h msg hhr hsc
      · rw [if_neg (by tauto)]
        simp only [handlerWrapperCore, hdir0, if_pos h1]
        rw [if_neg (by rw [hdst0]; tauto), if_neg (by simp [hig])]
    · rw [if_neg (by tauto)]
      simp only [handlerWrapperCore, hdir0, if_neg h1]
  by_cases hde : msg.direction = .Error
  · have hnd : ¬ msg.direction = dir := by
      rw [hde]
      exact fun hc => hdir hc.symm
    have hcoreval : handlerWrapperCore h msg = (h, []) := by
      rw [hcore, if_neg]
      exact fun hc => hnd hc.1
    have hwrap : (handlerWrapper h msg).2 = [.failure msg.error] := by
      simp only [handlerWrapper, hat, Bool.false_eq_true, if_false, if_pos hde, hcoreval]
      simp [errorHandlerRun_fresh_cb_calls h msg.error hhr hec]
    constructor
    · rw [hwrap]
      simp only [successCalls, List.filter, isSuccessCall]
      constructor
      · intro hfalse
        simp at hfalse
      · intro hcon
        exact absurd hcon.1 hnd
    · intro _
      rw [hwrap]
      simp [errorCalls, isSuccessCall]
  · have hwrap : handlerWrapper h msg = handlerWrapperCore h msg := by
      simp only [handlerWrapper, hat, Bool.false_eq_true, if_false, if_neg hde]
    refine ⟨?_, fun hcon => absurd hcon hde⟩
    rw [hwrap, hcore]
    by_cases hcond : msg.direction = dir ∧ msg.destinationId.isSome ∧
        (some D).map UUID.ID = msg.destinationId.map UUID.ID
    · rw [if_pos hcond]
      simp only [successCalls, List.filter, isSuccessCall]
      constructor
      · intro _
        refine ⟨hcond.1, ?_⟩
        rcases hx : msg.destinationId with _ | d
        · rw [hx] at hcond
          simp at hcond
        · refine ⟨d, rfl, ?_⟩
          have := hcond.2.2
          rw [hx] at this
          simpa [UUID.ID, eq_comm] using this
      · intro _
        simp
    · rw [if_neg hcond]
      simp only [successCalls, List.filter_nil]
      constructor
      · intro hfalse
        exact absurd rfl hfalse
      · intro hcon
        obtain ⟨hd1, d, hd2, hd3⟩ := hcon
        refine absurd ⟨hd1, ?_, ?_⟩ hcond
        · rw [hd2]
          rfl
        · rw [hd2]
          simpa [UUID.ID] using hd3.symm

theorem forDestination_delivery_iff_witness :
    ¬ (Direction.Response = Direction.Error) ∧
    ((successCalls (handlerWrapper
        ({ wrapMessageHandler .Response false false (some { idPart := 1, rest := 0 }) with
            runOnce := false }).Handle
        { direction := .Response, destinationId := some { idPart := 1, rest := 4 } }).2 ≠ []
      ↔ ({ direction := .Response,
           destinationId := some { idPart := 1, rest := 4 } } : Message).direction
            = Direction.Response ∧
        ∃ d, ({ direction := .Response,
                destinationId := some { idPart := 1, rest := 4 } } : Message).destinationId
              = some d ∧ d.ID = UUID.ID { idPart := 1, rest := 0 }) ∧
    (({ direction := .Response,
        destinationId := some { idPart := 1, rest := 4 } } : Message).direction
          = Direction.Error →
      errorCalls (handlerWrapper
          ({ wrapMessageHandler .Response false false (some { idPart := 1, rest := 0 }) with
              runOnce := false }).Handle
          { direction := .Response, destinationId := some { idPart := 1, rest := 4 } }).2
        = [.failure ({ direction := .Response,
                       destinationId := some { idPart := 1, rest := 4 } } : Message).error])) :=
  ⟨by decide,
   forDestination_delivery_iff .Response { idPart := 1, rest := 0 } false
     { direction := .Response, destinationId := some { idPart := 1, rest := 4 } }
     (by decide)⟩

theorem wrapper_ignore_success (h : MessageHandlerState) (msg : Message)
    (hat : h.allTraffic = false) (hig : h.ignoreId = true) (hhr : h.hasRun = false)
    (hsc : h.hasSuccessCallback = true) (hmd : msg.direction = h.direction)
    (hne : ¬ msg.direction = .Error) :
    handlerWrapper h msg
      = ({ h with hasRun := true, runCount := h.runCount + 1 }, [.success msg]) := by
  have hcore : handlerWrapperCore h msg
      = ({ h with hasRun := true, runCount := h.runCount + 1 }, [.success msg]) := by
    simp only [handlerWrapperCore, if_pos hmd]
    rw [if_neg (by simp [hig]), if_pos (by simp [hig])]
    exact successHandlerRun_fresh_cb h msg hhr hsc
  have hmain : handlerWrapper h msg = handlerWrapperCore h msg := by
    simp only [handlerWrapper, hat, Bool.false_eq_true, if_false, if_neg hne]
  rw [hmain]
  exact hcore

/-- C9: the one-shot and request forms without a caller destination
(ListenOnce, ListenRequestOnce, RequestOnce, RequestStream) each store a
freshly generated non-nil destination uuid, returned by GetDestinationId, yet
are built with ignoreId true, so their success callback fires for any
matching-direction message whether its destination id is nil or differs from
the stored one. -/
theorem oneshot_request_forms_ignore_destination (u : UUID) (msgResp msgReq : Message)
    (h1 : msgResp.direction = .Response)
    (_h2 : msgResp.destinationId = none ∨ ¬ msgResp.destinationId = some u)
    (h3 : msgReq.direction = .Request)
    (_h4 : msgReq.destinationId = none ∨ ¬ msgReq.destinationId = some u) :
    (ListenOnceHandler u).GetDestinationId = some u ∧
    (ListenOnceHandler u).ignoreId = true ∧
    (ListenRequestOnceHandler u).GetDestinationId = some u ∧
    (ListenRequestOnceHandler u).ignoreId = true ∧
    (RequestOnceHandler u).GetDestinationId = some u ∧
    (RequestOnceHandler u).ignoreId = true ∧
    (RequestStreamHandler u).GetDestinationId = some u ∧
    (RequestStreamHandler u).ignoreId = true ∧
    successCalls (handlerWrapper ((ListenOnceHandler u).Handle) msgResp).2
      = [.success msgResp] ∧
    successCalls (handlerWrapper ((ListenRequestOnceHandler u).Handle) msgReq).2
      = [.success msgReq] ∧
    successCalls (handlerWrapper ((RequestOnceHandler u).Handle) msgResp).2
      = [.success msgResp] ∧
    successCalls (handlerWrapper ((RequestStreamHandler u).Handle) msgResp).2
      = [.success msgResp] := by
  have hr2 : ¬ msgResp.direction = .Error := by
    rw [h1]
    exact fun hc => by cases hc
  have hr3 : ¬ msgReq.direction = .Error := by
    rw [h3]
    exact fun hc => by cases hc
  refine ⟨rfl, rfl, rfl, rfl, rfl, rfl, rfl, rfl, ?_, ?_, ?_, ?_⟩
  · rw [wrapper_ignore_success ((ListenOnceHandler u).Handle) msgResp rfl rfl rfl rfl
      (by rw [h1]; rfl) hr2]
    simp [successCalls, isSuccessCall]
  · rw [wrapper_ignore_success ((ListenRequestOnceHandler u).Handle) msgReq rfl rfl rfl rfl
      (by rw [h3]; rfl) hr3]
    simp [successCalls, isSuccessCall]
  · rw [wrapper_ignore_success ((RequestOnceHandler u).Handle) msgResp rfl rfl rfl rfl
      (by rw [h1]; rfl) hr2]
    simp [successCalls, isSuccessCall]
  · rw [wrapper_ignore_success ((RequestStreamHandler u).Handle) msgResp rfl rfl rfl rfl
      (by rw [h1]; rfl) hr2]
    simp [successCalls, isSuccessCall]

theorem oneshot_request_forms_ignore_destination_witness :
    (({ direction := .Response } : Message).direction = Direction.Response ∧
      (({ direction := .Response } : Message).destinationId = none ∨
        ¬ ({ direction := .Response } : Message).destinationId
            = some { idPart := 3, rest := 3 }) ∧
      ({ direction := .Request } : Message).direction = Direction.Request ∧
      (({ direction := .Request } : Message).destinationId = none ∨
        ¬ ({ direction := .Request } : Message).destinationId
            = some { idPart := 3, rest := 3 })) ∧
    ((ListenOnceHandler { idPart := 3, rest := 3 }).GetDestinationId
        = some { idPart := 3, rest := 3 } ∧
      (ListenOnceHandler { idPart := 3, rest := 3 }).ignoreId = true ∧
      (ListenRequestOnceHandler { idPart := 3, rest := 3 }).GetDestinationId
        = some { idPart := 3, rest := 3 } ∧
      (ListenRequestOnceHandler { idPart := 3, rest := 3 }).ignoreId = true ∧
      (RequestOnceHandler { idPart := 3, rest := 3 }).GetDestinationId
        = some { idPart := 3, rest := 3 } ∧
      (RequestOnceHandler { idPart := 3, rest := 3 }).ignoreId = true ∧
      (RequestStreamHandler { idPart := 3, rest := 3 }).GetDestinationId
        = some { idPart := 3, rest := 3 } ∧
      (RequestStreamHandler { idPart := 3, rest := 3 }).ignoreId = true ∧
      successCalls (handlerWrapper
          ((ListenOnceHandler { idPart := 3, rest := 3 }).Handle)
          { direction := .Response }).2
        = [.success { direction := .Response }] ∧
      successCalls (handlerWrapper
          ((ListenRequestOnceHandler { idPart := 3, rest := 3 }).Handle)
          { direction := .Request }).2
        = [.success { direction := .Request }] ∧
      successCalls (handlerWrapper
          ((RequestOnceHandler { idPart := 3, rest := 3 }).Handle)
          { direction := .Response }).2
        = [.success { direction := .Response }] ∧
      successCalls (handlerWrapper
          ((RequestStreamHandler { idPart := 3, rest := 3 }).Handle)
          { direction := .Response }).2
        = [.success { direction := .Response }]) :=
  ⟨⟨by decide, by decide, by decide, by decide⟩,
   oneshot_request_forms_ignore_destination { idPart := 3, rest := 3 }
     { direction := .Response } { direction := .Request }
     (by decide) (by decide) (by decide) (by decide)⟩

end TransportGo
